import Mathlib

/-!
Verification of the configuration-loading module `api/settings/config.py`.

The module declares a pydantic `BaseSettings` subclass `Settings` with four
fields read from environment variables, optionally pre-seeded from a local
`.env` file (process environment takes precedence over the file, per the
documented pydantic-settings source priority), and exposes a cached accessor
`get_settings` (wrapped in `functools.lru_cache`) plus a module-level global
`settings = get_settings()` bound eagerly at import time.

Embedding choices:
- an environment is an association list of key/value string pairs, looked up
  by first match;
- pydantic validation is per field, in declaration order; pydantic collects
  the errors of all failing fields into one `ValidationError`, while this
  embedding stops at the first failing field.  Both fail exactly when some
  field fails, which is all the claims below depend on;
- the lax string-to-int coercion pydantic applies to the string value of
  `ACCESS_TOKEN_EXPIRE_MINUTES` is modelled by `parseIntStr` (decimal
  integer with optional sign); a non-numeric string fails the coercion;
- `lru_cache` is modelled sequentially by an explicit cache state holding the
  memoised record and a counter of how many times the underlying load ran.
  `lru_cache` does not memoise exceptions, so a failing load leaves the cache
  empty.
-/

/-- Association list of environment variables. -/
abbrev Env := List (String × String)

/-- First-match lookup of a key in an environment. -/
def lookupEnv : Env → String → Option String
  | [], _ => none
  | (k, v) :: rest, key => if k = key then some v else lookupEnv rest key

/-- Lookup with the pydantic-settings source priority for this module:
the process environment first, then the `.env` file
(`model_config = SettingsConfigDict(env_file=Path.cwd() / ".env", ...)`,
config.py lines 76 to 79). -/
def effectiveLookup (procEnv fileEnv : Env) (key : String) : Option String :=
  match lookupEnv procEnv key with
  | some v => some v
  | none => lookupEnv fileEnv key

/-- Validation errors pydantic can raise for this model, tagged with the
offending field name.  All of them surface as one `ValidationError`
(the `ConfigurationError` of the spec). -/
inductive ConfigError where
  | missing (field : String)
  | stringTooShort (field : String)
  | stringTooLong (field : String)
  | intParsing (field : String)
  | greaterThanEqual (field : String)
deriving Repr, DecidableEq

/-- Settings record, mirroring the four fields of `class Settings(BaseSettings)`
(config.py lines 39 to 79). -/
structure Settings where
  SECRET_KEY : String
  ALGORITHM : String
  ACCESS_TOKEN_EXPIRE_MINUTES : Int
  DATABASE_URL : String
deriving Repr, DecidableEq

/-- Field `SECRET_KEY`: required, `min_length=64`, `max_length=64`
(config.py lines 45 to 54). -/
def getSECRET_KEY (procEnv fileEnv : Env) : Except ConfigError String :=
  match effectiveLookup procEnv fileEnv "SECRET_KEY" with
  | none => .error (.missing "SECRET_KEY")
  | some sk =>
    if sk.length < 64 then .error (.stringTooShort "SECRET_KEY")
    else if 64 < sk.length then .error (.stringTooLong "SECRET_KEY")
    else .ok sk

/-- Field `ALGORITHM`: required, no further constraint in the source
(config.py lines 55 to 59 declare only title, description and examples). -/
def getALGORITHM (procEnv fileEnv : Env) : Except ConfigError String :=
  match effectiveLookup procEnv fileEnv "ALGORITHM" with
  | none => .error (.missing "ALGORITHM")
  | some alg => .ok alg

/-- Accumulator pass over a digit string: fails on the first non-digit
character. -/
def digitsToNatAux : Nat → List Char → Option Nat
  | acc, [] => some acc
  | acc, c :: cs =>
    if '0' ≤ c ∧ c ≤ '9' then digitsToNatAux (10 * acc + (c.toNat - 48)) cs
    else none

/-- Decimal integer parse of a string, with an optional leading sign.  This
models the lax string-to-int coercion pydantic applies to environment values
of int fields: a non-numeric string does not coerce. -/
def parseIntStr (s : String) : Option Int :=
  match s.data with
  | [] => none
  | '-' :: cs =>
    match cs with
    | [] => none
    | _ => (digitsToNatAux 0 cs).map fun n => -(n : Int)
  | '+' :: cs =>
    match cs with
    | [] => none
    | _ => (digitsToNatAux 0 cs).map fun n => (n : Int)
  | cs => (digitsToNatAux 0 cs).map fun n => (n : Int)

/-- Field `ACCESS_TOKEN_EXPIRE_MINUTES`: required, coerced from string to int,
`ge=1` (config.py lines 60 to 66). -/
def getACCESS_TOKEN_EXPIRE_MINUTES (procEnv fileEnv : Env) :
    Except ConfigError Int :=
  match effectiveLookup procEnv fileEnv "ACCESS_TOKEN_EXPIRE_MINUTES" with
  | none => .error (.missing "ACCESS_TOKEN_EXPIRE_MINUTES")
  | some m =>
    match parseIntStr m with
    | none => .error (.intParsing "ACCESS_TOKEN_EXPIRE_MINUTES")
    | some n =>
      if n < 1 then .error (.greaterThanEqual "ACCESS_TOKEN_EXPIRE_MINUTES")
      else .ok n

/-- Field `DATABASE_URL`: required, no further constraint in the source
(config.py lines 67 to 74 declare only title, description and examples). -/
def getDATABASE_URL (procEnv fileEnv : Env) : Except ConfigError String :=
  match effectiveLookup procEnv fileEnv "DATABASE_URL" with
  | none => .error (.missing "DATABASE_URL")
  | some url => .ok url

/-- Construction of `Settings()`: validate each declared field against the
effective environment; fail if any field fails, otherwise return the record.
This is the `load()` operation of the spec. -/
def loadSettings (procEnv fileEnv : Env) : Except ConfigError Settings :=
  match getSECRET_KEY procEnv fileEnv with
  | .error e => .error e
  | .ok sk =>
    match getALGORITHM procEnv fileEnv with
    | .error e => .error e
    | .ok alg =>
      match getACCESS_TOKEN_EXPIRE_MINUTES procEnv fileEnv with
      | .error e => .error e
      | .ok n =>
        match getDATABASE_URL procEnv fileEnv with
        | .error e => .error e
        | .ok url => .ok ⟨sk, alg, n, url⟩

/-- State of the `lru_cache` wrapped around `get_settings`
(config.py lines 84 to 92): the memoised record, if any, and how many times
the underlying `Settings()` construction has run. -/
structure CacheState where
  cached : Option Settings
  loadCount : Nat
deriving Repr, DecidableEq

/-- One call to `get_settings()`: return the memoised record when present;
otherwise run `Settings()` and, on success, memoise it.  `lru_cache` does not
memoise a raised exception, so a failing load leaves the cache empty. -/
def get_settings (procEnv fileEnv : Env) (st : CacheState) :
    Except ConfigError Settings × CacheState :=
  match st.cached with
  | some s => (.ok s, st)
  | none =>
    match loadSettings procEnv fileEnv with
    | .ok s => (.ok s, ⟨some s, st.loadCount + 1⟩)
    | .error e => (.error e, ⟨none, st.loadCount + 1⟩)

/-- Iterated calls to `get_settings()`, threading the cache state. -/
def get_settings_iter (procEnv fileEnv : Env) : Nat → CacheState → CacheState
  | 0, st => st
  | k + 1, st => get_settings_iter procEnv fileEnv k
      (get_settings procEnv fileEnv st).2

/-- State of the module after a successful import: the populated cache and
the module-level global `settings` (config.py line 97). -/
structure ModuleState where
  cache : CacheState
  settings : Settings
deriving Repr, DecidableEq

/-- Importing the module runs `settings: Settings = get_settings()` at module
top level (config.py line 97), starting from an empty cache.  If the load
raises, the import itself fails. -/
def importModule (procEnv fileEnv : Env) : Except ConfigError ModuleState :=
  match get_settings procEnv fileEnv ⟨none, 0⟩ with
  | (.ok s, st) => .ok ⟨st, s⟩
  | (.error e, _) => .error e

/-! ### Helper lemmas -/

/-- Lookup in a concatenated environment: entries of the first list shadow
entries of the second. -/
theorem lookupEnv_append (p f : Env) (k : String) :
    lookupEnv (p ++ f) k =
      match lookupEnv p k with
      | some v => some v
      | none => lookupEnv f k := by
  induction p with
  | nil => simp [lookupEnv]
  | cons hd tl ih =>
    obtain ⟨hk, hv⟩ := hd
    by_cases h : hk = k
    · simp [lookupEnv, h]
    · simp [lookupEnv, h, ih]

/-- A failing `SECRET_KEY` field fails the whole construction. -/
theorem loadSettings_error_of_SECRET_KEY (p f : Env) (e : ConfigError)
    (h : getSECRET_KEY p f = .error e) : loadSettings p f = .error e := by
  simp [loadSettings, h]

/-- A failing `ALGORITHM` field fails the whole construction with some error
(an earlier field may fail first). -/
theorem loadSettings_error_of_ALGORITHM (p f : Env) (e : ConfigError)
    (h : getALGORITHM p f = .error e) :
    ∃ e2, loadSettings p f = .error e2 := by
  cases h1 : getSECRET_KEY p f with
  | error e1 => exact ⟨e1, by simp [loadSettings, h1]⟩
  | ok sk => exact ⟨e, by simp [loadSettings, h1, h]⟩

/-- A failing `ACCESS_TOKEN_EXPIRE_MINUTES` field fails the whole
construction with some error (an earlier field may fail first). -/
theorem loadSettings_error_of_minutes (p f : Env) (e : ConfigError)
    (h : getACCESS_TOKEN_EXPIRE_MINUTES p f = .error e) :
    ∃ e2, loadSettings p f = .error e2 := by
  cases h1 : getSECRET_KEY p f with
  | error e1 => exact ⟨e1, by simp [loadSettings, h1]⟩
  | ok sk =>
    cases h2 : getALGORITHM p f with
    | error e2 => exact ⟨e2, by simp [loadSettings, h1, h2]⟩
    | ok alg => exact ⟨e, by simp [loadSettings, h1, h2, h]⟩

/-- A failing `DATABASE_URL` field fails the whole construction with some
error (an earlier field may fail first). -/
theorem loadSettings_error_of_DATABASE_URL (p f : Env) (e : ConfigError)
    (h : getDATABASE_URL p f = .error e) :
    ∃ e2, loadSettings p f = .error e2 := by
  cases h1 : getSECRET_KEY p f with
  | error e1 => exact ⟨e1, by simp [loadSettings, h1]⟩
  | ok sk =>
    cases h2 : getALGORITHM p f with
    | error e2 => exact ⟨e2, by simp [loadSettings, h1, h2]⟩
    | ok alg =>
      cases h3 : getACCESS_TOKEN_EXPIRE_MINUTES p f with
      | error e3 => exact ⟨e3, by simp [loadSettings, h1, h2, h3]⟩
      | ok n => exact ⟨e, by simp [loadSettings, h1, h2, h3, h]⟩

/-- When every field is supplied and satisfies its constraint, the
construction returns the supplied values unchanged. -/
theorem loadSettings_ok_of_valid (p f : Env) (sk alg m url : String) (n : Int)
    (hsk : effectiveLookup p f "SECRET_KEY" = some sk)
    (hlen : sk.length = 64)
    (halg : effectiveLookup p f "ALGORITHM" = some alg)
    (hm : effectiveLookup p f "ACCESS_TOKEN_EXPIRE_MINUTES" = some m)
    (hn : parseIntStr m = some n)
    (hge : 1 ≤ n)
    (hurl : effectiveLookup p f "DATABASE_URL" = some url) :
    loadSettings p f = .ok ⟨sk, alg, n, url⟩ := by
  have h1 : getSECRET_KEY p f = .ok sk := by
    simp [getSECRET_KEY, hsk, hlen]
  have h2 : getALGORITHM p f = .ok alg := by
    simp [getALGORITHM, halg]
  have hnlt : ¬ n < 1 := by omega
  have h3 : getACCESS_TOKEN_EXPIRE_MINUTES p f = .ok n := by
    simp [getACCESS_TOKEN_EXPIRE_MINUTES, hm, hn, hnlt]
  have h4 : getDATABASE_URL p f = .ok url := by
    simp [getDATABASE_URL, hurl]
  simp [loadSettings, h1, h2, h3, h4]

/-! ### Concrete sample environments -/

/-- Example 64-character secret taken from the examples list in the source. -/
def skExample : String :=
  "42f2029d884cb2707f9abd7ba591a060ed031d7e99dff1e86bc2f0de665f4b39"

/-- A fully valid environment. -/
def envValid : Env :=
  [("SECRET_KEY", skExample), ("ALGORITHM", "HS256"),
   ("ACCESS_TOKEN_EXPIRE_MINUTES", "30"),
   ("DATABASE_URL", "sqlite:///example.db")]

/-- The record loaded from `envValid`. -/
def sExample : Settings :=
  ⟨skExample, "HS256", 30, "sqlite:///example.db"⟩

/-- An otherwise valid environment whose `ALGORITHM` and `DATABASE_URL` are
empty strings. -/
def envEmptyAlgUrl : Env :=
  [("SECRET_KEY", skExample), ("ALGORITHM", ""),
   ("ACCESS_TOKEN_EXPIRE_MINUTES", "30"), ("DATABASE_URL", "")]

/-- An otherwise valid environment whose `ALGORITHM` alone is the empty
string. -/
def envEmptyAlg : Env :=
  [("SECRET_KEY", skExample), ("ALGORITHM", ""),
   ("ACCESS_TOKEN_EXPIRE_MINUTES", "30"),
   ("DATABASE_URL", "sqlite:///example.db")]

/-- An environment whose secret key is too short. -/
def envShortKey : Env :=
  [("SECRET_KEY", "short"), ("ALGORITHM", "HS256"),
   ("ACCESS_TOKEN_EXPIRE_MINUTES", "30"),
   ("DATABASE_URL", "sqlite:///example.db")]

/-- An environment whose expiry minutes value is not numeric. -/
def envBadMinutes : Env :=
  [("SECRET_KEY", skExample), ("ALGORITHM", "HS256"),
   ("ACCESS_TOKEN_EXPIRE_MINUTES", "abc"),
   ("DATABASE_URL", "sqlite:///example.db")]

/-! ### Claims -/

/-- C1: for every environment in which SECRET_KEY is a 64-character string,
ALGORITHM and DATABASE_URL are present strings, and
ACCESS_TOKEN_EXPIRE_MINUTES parses to an integer >= 1, constructing
`Settings()` succeeds and the four fields equal the supplied values exactly,
with no transformation beyond the declared string-to-int coercion of the
minutes value. -/
theorem load_returns_supplied_values (p f : Env) (sk alg m url : String)
    (n : Int)
    (hsk : effectiveLookup p f "SECRET_KEY" = some sk)
    (hlen : sk.length = 64)
    (halg : effectiveLookup p f "ALGORITHM" = some alg)
    (hm : effectiveLookup p f "ACCESS_TOKEN_EXPIRE_MINUTES" = some m)
    (hn : parseIntStr m = some n)
    (hge : 1 ≤ n)
    (hurl : effectiveLookup p f "DATABASE_URL" = some url) :
    loadSettings p f = .ok ⟨sk, alg, n, url⟩ :=
  loadSettings_ok_of_valid p f sk alg m url n hsk hlen halg hm hn hge hurl

/-- Witness for C1 at a concrete valid environment. -/
theorem load_returns_supplied_values_witness :
    loadSettings envValid [] = .ok sExample :=
  load_returns_supplied_values envValid [] skExample "HS256" "30"
    "sqlite:///example.db" 30 rfl rfl rfl rfl rfl (by omega) rfl

/-- C2: if the value supplied for SECRET_KEY has length different from 64,
constructing `Settings()` fails with a validation error. -/
theorem secret_key_wrong_length_fails (p f : Env) (sk : String)
    (hsk : effectiveLookup p f "SECRET_KEY" = some sk)
    (hlen : sk.length ≠ 64) :
    ∃ e, loadSettings p f = .error e := by
  rcases Nat.lt_or_ge sk.length 64 with h | h
  · refine ⟨.stringTooShort "SECRET_KEY", ?_⟩
    apply loadSettings_error_of_SECRET_KEY
    simp [getSECRET_KEY, hsk, h]
  · have h64 : 64 < sk.length := lt_of_le_of_ne h (Ne.symm hlen)
    refine ⟨.stringTooLong "SECRET_KEY", ?_⟩
    apply loadSettings_error_of_SECRET_KEY
    simp [getSECRET_KEY, hsk, Nat.not_lt.mpr h, h64]

/-- Witness for C2 at a concrete environment with a 5-character key. -/
theorem secret_key_wrong_length_fails_witness :
    ∃ e, loadSettings envShortKey [] = .error e :=
  secret_key_wrong_length_fails envShortKey [] "short" rfl (by decide)

/-- C3: if the value supplied for ACCESS_TOKEN_EXPIRE_MINUTES is non-numeric
or parses to an integer below 1, constructing `Settings()` fails with a
validation error. -/
theorem expire_minutes_invalid_fails (p f : Env) (m : String)
    (hm : effectiveLookup p f "ACCESS_TOKEN_EXPIRE_MINUTES" = some m)
    (hbad : parseIntStr m = none ∨ ∃ n, parseIntStr m = some n ∧ n < 1) :
    ∃ e, loadSettings p f = .error e := by
  rcases hbad with h | ⟨n, hn, hlt⟩
  · exact loadSettings_error_of_minutes p f (.intParsing "ACCESS_TOKEN_EXPIRE_MINUTES")
      (by simp [getACCESS_TOKEN_EXPIRE_MINUTES, hm, h])
  · exact loadSettings_error_of_minutes p f
      (.greaterThanEqual "ACCESS_TOKEN_EXPIRE_MINUTES")
      (by simp [getACCESS_TOKEN_EXPIRE_MINUTES, hm, hn, hlt])

/-- Witness for C3 at a concrete environment with a non-numeric minutes
value. -/
theorem expire_minutes_invalid_fails_witness :
    ∃ e, loadSettings envBadMinutes [] = .error e :=
  expire_minutes_invalid_fails envBadMinutes [] "abc" rfl (Or.inl rfl)

/-- C4: if any of the four required variables is absent from both the process
environment and the environment file, constructing `Settings()` fails with a
validation error; no partially populated record is ever produced, since the
result type is either an error or a full record. -/
theorem missing_variable_fails (p f : Env)
    (h : lookupEnv p "SECRET_KEY" = none ∧ lookupEnv f "SECRET_KEY" = none
       ∨ lookupEnv p "ALGORITHM" = none ∧ lookupEnv f "ALGORITHM" = none
       ∨ lookupEnv p "ACCESS_TOKEN_EXPIRE_MINUTES" = none
         ∧ lookupEnv f "ACCESS_TOKEN_EXPIRE_MINUTES" = none
       ∨ lookupEnv p "DATABASE_URL" = none
         ∧ lookupEnv f "DATABASE_URL" = none) :
    ∃ e, loadSettings p f = .error e := by
  rcases h with ⟨hp, hf⟩ | ⟨hp, hf⟩ | ⟨hp, hf⟩ | ⟨hp, hf⟩
  · refine ⟨.missing "SECRET_KEY", ?_⟩
    apply loadSettings_error_of_SECRET_KEY
    simp [getSECRET_KEY, effectiveLookup, hp, hf]
  · exact loadSettings_error_of_ALGORITHM p f (.missing "ALGORITHM")
      (by simp [getALGORITHM, effectiveLookup, hp, hf])
  · exact loadSettings_error_of_minutes p f
      (.missing "ACCESS_TOKEN_EXPIRE_MINUTES")
      (by simp [getACCESS_TOKEN_EXPIRE_MINUTES, effectiveLookup, hp, hf])
  · exact loadSettings_error_of_DATABASE_URL p f (.missing "DATABASE_URL")
      (by simp [getDATABASE_URL, effectiveLookup, hp, hf])

/-- Witness for C4 at the empty environment. -/
theorem missing_variable_fails_witness :
    ∃ e, loadSettings [] [] = .error e :=
  missing_variable_fails [] [] (Or.inl ⟨rfl, rfl⟩)

/-- C5 counterexample: the source declares no non-emptiness constraint on
`ALGORITHM` or `DATABASE_URL`, so an environment supplying empty strings for
both (with the other fields valid) loads successfully instead of failing. -/
theorem empty_algorithm_and_url_accepted :
    lookupEnv envEmptyAlgUrl "ALGORITHM" = some "" ∧
    lookupEnv envEmptyAlgUrl "DATABASE_URL" = some "" ∧
    loadSettings envEmptyAlgUrl [] = .ok ⟨skExample, "", 30, ""⟩ :=
  ⟨rfl, rfl, rfl⟩

/-- C5 amended: when the value supplied for ALGORITHM is the empty string, or
the value supplied for DATABASE_URL is the empty string (or both), and the
remaining constraints hold, constructing `Settings()` accepts the empty value:
the load succeeds and stores the supplied values, empty strings included,
unchanged. -/
theorem empty_algorithm_and_url_load_ok (p f : Env) (sk alg m url : String)
    (n : Int)
    (hsk : effectiveLookup p f "SECRET_KEY" = some sk)
    (hlen : sk.length = 64)
    (halg : effectiveLookup p f "ALGORITHM" = some alg)
    (hm : effectiveLookup p f "ACCESS_TOKEN_EXPIRE_MINUTES" = some m)
    (hn : parseIntStr m = some n)
    (hge : 1 ≤ n)
    (hurl : effectiveLookup p f "DATABASE_URL" = some url)
    (hempty : alg = "" ∨ url = "") :
    loadSettings p f = .ok ⟨sk, alg, n, url⟩ :=
  loadSettings_ok_of_valid p f sk alg m url n hsk hlen halg hm hn hge hurl

/-- Witness for the amended C5 at a concrete environment where only ALGORITHM
is empty and DATABASE_URL is not. -/
theorem empty_algorithm_and_url_load_ok_witness :
    loadSettings envEmptyAlg [] = .ok ⟨skExample, "", 30, "sqlite:///example.db"⟩ :=
  empty_algorithm_and_url_load_ok envEmptyAlg [] skExample "" "30"
    "sqlite:///example.db" 30 rfl rfl rfl rfl rfl (by omega) rfl (Or.inl rfl)

/-- C6: in the sequential model of `lru_cache`, when the load succeeds, the
first call to `get_settings()` performs the load once and memoises the
record, the second call returns the identical record without touching the
load, and any number of further calls leaves the load count at one. -/
theorem get_settings_twice_single_load (p f : Env) (s : Settings)
    (h : loadSettings p f = .ok s) :
    get_settings p f ⟨none, 0⟩ = (.ok s, ⟨some s, 1⟩) ∧
    get_settings p f ⟨some s, 1⟩ = (.ok s, ⟨some s, 1⟩) ∧
    ∀ k, (get_settings_iter p f k ⟨some s, 1⟩).loadCount = 1 := by
  refine ⟨by simp [get_settings, h], rfl, ?_⟩
  intro k
  induction k with
  | zero => rfl
  | succ k ih =>
    simpa [get_settings_iter, get_settings] using ih

/-- Witness for C6 at a concrete valid environment. -/
theorem get_settings_twice_single_load_witness :
    get_settings envValid [] ⟨none, 0⟩ = (.ok sExample, ⟨some sExample, 1⟩) ∧
    get_settings envValid [] ⟨some sExample, 1⟩
      = (.ok sExample, ⟨some sExample, 1⟩) :=
  ⟨(get_settings_twice_single_load envValid [] sExample rfl).1,
   (get_settings_twice_single_load envValid [] sExample rfl).2.1⟩

/-- C7: the environment file only pre-seeds variables that are not already in
the process environment: a process-environment value shadows the file value
for the same key, a key absent from the process environment falls back to the
file, and in general the effective lookup behaves exactly like looking the
key up in the process environment extended at lower priority by the file. -/
theorem proc_env_precedence_over_file (p f : Env) (k v : String) :
    (lookupEnv p k = some v → effectiveLookup p f k = some v) ∧
    (lookupEnv p k = none → effectiveLookup p f k = lookupEnv f k) ∧
    effectiveLookup p f k = lookupEnv (p ++ f) k := by
  refine ⟨fun h => by simp [effectiveLookup, h],
          fun h => by simp [effectiveLookup, h], ?_⟩
  rw [lookupEnv_append]
  rfl

/-- Witness for C7: a key present in both sources resolves to the process
value; a key present only in the file resolves to the file value. -/
theorem proc_env_precedence_over_file_witness :
    effectiveLookup [("ALGORITHM", "HS256")] [("ALGORITHM", "RS256")]
      "ALGORITHM" = some "HS256" ∧
    effectiveLookup [] [("ALGORITHM", "RS256")] "ALGORITHM" = some "RS256" :=
  ⟨(proc_env_precedence_over_file [("ALGORITHM", "HS256")]
      [("ALGORITHM", "RS256")] "ALGORITHM" "HS256").1 rfl,
   ((proc_env_precedence_over_file [] [("ALGORITHM", "RS256")]
      "ALGORITHM" "HS256").2.1 rfl).trans rfl⟩

/-- C8: the record is immutable after construction: once the cache holds a
record, any number of further `get_settings()` calls leaves the cache state,
and hence every field of the record, exactly as established at load time,
and each call returns that same record. -/
theorem settings_record_immutable (p f : Env) (s : Settings) (c k : Nat) :
    get_settings_iter p f k ⟨some s, c⟩ = ⟨some s, c⟩ ∧
    (get_settings p f ⟨some s, c⟩).1 = .ok s := by
  refine ⟨?_, rfl⟩
  induction k with
  | zero => rfl
  | succ k ih => simpa [get_settings_iter, get_settings] using ih

/-- C10: importing the module binds `settings = get_settings()` eagerly: if
the load fails, the import itself fails with that error; if the import
succeeds, the load succeeded exactly once, the cache already holds the
module-level record, and any later `get_settings()` call returns that very
record without changing the state. -/
theorem import_eager_and_cached (p f : Env) :
    (∀ e, loadSettings p f = .error e → importModule p f = .error e) ∧
    (∀ ms, importModule p f = .ok ms →
       loadSettings p f = .ok ms.settings ∧
       ms.cache = ⟨some ms.settings, 1⟩ ∧
       get_settings p f ms.cache = (.ok ms.settings, ms.cache)) := by
  constructor
  · intro e he
    simp [importModule, get_settings, he]
  · intro ms hms
    cases hl : loadSettings p f with
    | error e => simp [importModule, get_settings, hl] at hms
    | ok s =>
      have hok : importModule p f = .ok ⟨⟨some s, 1⟩, s⟩ := by
        simp [importModule, get_settings, hl]
      obtain rfl : ms = ⟨⟨some s, 1⟩, s⟩ :=
        (Except.ok.inj (hok.symm.trans hms)).symm
      exact ⟨rfl, rfl, rfl⟩

/-- Witness for C10: an empty environment makes the import fail with the
missing-secret error, and after a successful import of the valid environment
the accessor returns the memoised record unchanged. -/
theorem import_eager_and_cached_witness :
    importModule [] [] = .error (.missing "SECRET_KEY") ∧
    get_settings envValid [] ⟨some sExample, 1⟩
      = (.ok sExample, ⟨some sExample, 1⟩) :=
  ⟨(import_eager_and_cached [] []).1 (.missing "SECRET_KEY") rfl,
   ((import_eager_and_cached envValid []).2 ⟨⟨some sExample, 1⟩, sExample⟩
      rfl).2.2⟩
